import Mathlib

/-!
Verification of the emissions-circuit proving service (`src/main.go`).

The development shallowly embeds the Go source:

* The circuit (`Allocate`, `Define`) is embedded as a pure function from the
  circuit constant `EmissionsData` and the list of storage-slot values to the
  set of in-circuit assertions (collapsed to a single Boolean, since
  `sdk.AssertEach` conjoins per-slot equality checks) and the value handed to
  `api.OutputUint(248, ·)`.  Machine integers are modelled as `Nat` with
  explicit `% 2 ^ w` where the source truncates: `big.Int.Uint64()` is
  `% 2 ^ 64` (all values in scope are non-negative) and the conversion of a
  slot value into the 248-bit circuit domain is `% 2 ^ 248`.
* The preparation gate (`handlePrepareDownload`) is embedded as a step
  function on the `circuitPrepared` flag.  The Go mutex is held for the whole
  body of the background goroutine, so any interleaving of N concurrent
  triggers is observationally a sequence of atomic executions of that body;
  `runPrep` folds such a serialized sequence, with the outcome of the two
  fallible external calls (`sdk.NewBrevisApp`, `sdk.Compile`) supplied by an
  oracle per step.
* The submission pipeline (`handleSubmitProof`) is embedded as a function
  from the prepared flag and an oracle of collaborator outcomes to the HTTP
  response together with a trace recording which collaborators were invoked
  and with which slot stream witness generation was entered.
-/

/-- `big.Int.Uint64()` for a non-negative value: the low 64 bits. -/
def uint64 (n : Nat) : Nat := n % 2 ^ 64

/-- `api.ToUint248` applied to a slot value: the value in the 248-bit
circuit domain. -/
def toUint248 (v : Nat) : Nat := v % 2 ^ 248

/-- Result of running the circuit body `Define` on concrete inputs:
whether every `sdk.AssertEach` equality assertion holds, and the value the
circuit declares via `api.OutputUint(248, ·)`. -/
structure DefineResult where
  constraintsOk : Bool
  output : Nat
deriving Repr, DecidableEq

/-- `func (c *AppCircuit) Allocate()` — the fixed resource bound
`(maxReceipts, maxStorage, maxTransactions)`. -/
def Allocate : Nat × Nat × Nat := (0, 32, 0)

/-- `func (c *AppCircuit) Define(api, in)` on a stream of slot values:
`expectedEmission := ConstUint248(EmissionsData.Uint64())`; assert for each
slot that `ToUint248(slot.Value) = expectedEmission`; map each slot to
`ToUint248(slot.Value)`; sum; output the sum as a 248-bit unsigned integer. -/
def Define (emissionsData : Nat) (slots : List Nat) : DefineResult :=
  let expectedEmission := uint64 emissionsData
  { constraintsOk := slots.all fun slot => toUint248 slot == expectedEmission
    output := (slots.map fun slot => toUint248 slot).sum }

theorem uint64_lt (n : Nat) : uint64 n < 2 ^ 64 :=
  Nat.mod_lt _ (by norm_num)

theorem toUint248_eq_of_lt {v : Nat} (h : v < 2 ^ 248) : toUint248 v = v :=
  Nat.mod_eq_of_lt h

theorem define_sum_const (c : Nat) (hc : c < 2 ^ 248) (slots : List Nat)
    (hall : ∀ v ∈ slots, v = c) :
    (slots.map fun slot => toUint248 slot).sum = c * slots.length := by
  induction slots with
  | nil => simp
  | cons v vs ih =>
      have hv : v = c := hall v (List.mem_cons_self v vs)
      have hrest : ∀ w ∈ vs, w = c := fun w hw => hall w (List.mem_cons_of_mem _ hw)
      simp [ih hrest, hv, toUint248_eq_of_lt hc, Nat.mul_succ, Nat.add_comm]

/-- C1: for every slot stream of length at most 32 in which every slot value
equals the in-circuit constant `expectedEmission = uint64 emissionsData`,
every assertion of `Define` is satisfied and the single public output equals
`expectedEmission` times the number of slots, a value that fits in 248 bits
as `OutputUint 248` requires. -/
theorem define_output_all_equal (d : Nat) (slots : List Nat)
    (hlen : slots.length ≤ 32)
    (hall : ∀ v ∈ slots, v = uint64 d) :
    (Define d slots).constraintsOk = true ∧
    (Define d slots).output = uint64 d * slots.length ∧
    (Define d slots).output < 2 ^ 248 := by
  have hc : uint64 d < 2 ^ 248 :=
    lt_trans (uint64_lt d) (by norm_num)
  refine ⟨?_, ?_, ?_⟩
  · simp only [Define, List.all_eq_true]
    intro v hv
    have : v = uint64 d := hall v hv
    simp [this, toUint248_eq_of_lt hc]
  · simpa [Define] using define_sum_const (uint64 d) hc slots hall
  · have hout : (Define d slots).output = uint64 d * slots.length := by
      simpa [Define] using define_sum_const (uint64 d) hc slots hall
    rw [hout]
    calc uint64 d * slots.length ≤ 2 ^ 64 * 32 :=
          Nat.mul_le_mul (Nat.le_of_lt (uint64_lt d)) hlen
      _ < 2 ^ 248 := by norm_num

/-- Witness for C1: the spec's end-to-end scenario, constant 10000 and three
slots each valued 10000, yields a satisfied circuit with output 30000. -/
theorem define_output_all_equal_spot :
    (Define 10000 [10000, 10000, 10000]).constraintsOk = true ∧
    (Define 10000 [10000, 10000, 10000]).output = uint64 10000 * 3 ∧
    (Define 10000 [10000, 10000, 10000]).output < 2 ^ 248 := by
  simpa using define_output_all_equal 10000 [10000, 10000, 10000]
    (by norm_num) (by intro v hv; simp [uint64] at hv ⊢; omega)

/-- C2: for every slot stream containing at least one value (in the 248-bit
slot domain) differing from the in-circuit constant, some assertion of
`Define` fails, so no satisfying assignment exists and proving must fail. -/
theorem define_unsat_of_mismatch (d : Nat) (slots : List Nat)
    (hbound : ∀ v ∈ slots, v < 2 ^ 248)
    (hne : ∃ v ∈ slots, v ≠ uint64 d) :
    (Define d slots).constraintsOk = false := by
  obtain ⟨v, hv, hvne⟩ := hne
  simp only [Define, List.all_eq_false]
  refine ⟨v, hv, ?_⟩
  simp [toUint248_eq_of_lt (hbound v hv), hvne]

/-- Witness for C2: the spec's failing scenario, constant 10000 with one of
three slots valued 9999, leaves the constraints unsatisfied. -/
theorem define_unsat_of_mismatch_spot :
    (Define 10000 [10000, 9999, 10000]).constraintsOk = false := by
  refine define_unsat_of_mismatch 10000 [10000, 9999, 10000] ?_ ?_
  · intro v hv
    fin_cases hv <;> norm_num
  · refine ⟨9999, by norm_num, ?_⟩
    simp [uint64]

/-- C10: `Define` builds its in-circuit constant from `EmissionsData` by
`Uint64()` truncation: a single slot of value `v` satisfies the assertion
exactly when `v = emissionsData % 2 ^ 64`; for `emissionsData < 2 ^ 64` the
constant is `emissionsData` itself, while for `emissionsData ≥ 2 ^ 64` the
constant is `emissionsData % 2 ^ 64`, which differs from `emissionsData`. -/
theorem define_constant_truncation (d v : Nat) (hv : v < 2 ^ 248) :
    ((Define d [v]).constraintsOk = true ↔ v = d % 2 ^ 64) ∧
    (d < 2 ^ 64 → uint64 d = d) ∧
    (2 ^ 64 ≤ d → uint64 d = d % 2 ^ 64 ∧ uint64 d ≠ d) := by
  refine ⟨?_, fun h => Nat.mod_eq_of_lt h, fun h => ⟨rfl, ?_⟩⟩
  · simp [Define, toUint248_eq_of_lt hv, uint64]
  · have hlt : d % 2 ^ 64 < 2 ^ 64 := Nat.mod_lt _ (by norm_num)
    intro hc
    rw [uint64] at hc
    omega

/-- Witness for C10: with `EmissionsData = 2 ^ 64 + 5`, a slot valued 5
satisfies the assertion even though it differs from `EmissionsData`. -/
theorem define_constant_truncation_spot :
    ((Define (2 ^ 64 + 5) [5]).constraintsOk = true ↔ 5 = (2 ^ 64 + 5) % 2 ^ 64) ∧
    (2 ^ 64 + 5 < 2 ^ 64 → uint64 (2 ^ 64 + 5) = 2 ^ 64 + 5) ∧
    (2 ^ 64 ≤ 2 ^ 64 + 5 →
      uint64 (2 ^ 64 + 5) = (2 ^ 64 + 5) % 2 ^ 64 ∧ uint64 (2 ^ 64 + 5) ≠ 2 ^ 64 + 5) :=
  define_constant_truncation (2 ^ 64 + 5) 5 (by norm_num)

/-- Outcome of the two fallible external calls made inside one execution of
the `handlePrepareDownload` background goroutine: whether
`sdk.NewBrevisApp` succeeds and whether `sdk.Compile` succeeds. -/
structure PrepOutcome where
  appInitOk : Bool
  compileOk : Bool
deriving Repr, DecidableEq

/-- The log line one execution of the background goroutine emits. -/
inductive PrepLog where
  | alreadyPrepared
  | appInitError
  | compileError
  | complete
deriving Repr, DecidableEq

/-- Observable effect of one execution of the background goroutine: the
`circuitPrepared` flag afterwards, whether `sdk.Compile` was invoked, and
which line was logged. -/
structure PrepStepResult where
  prepared : Bool
  compiled : Bool
  log : PrepLog
deriving Repr, DecidableEq

/-- The body of the `handlePrepareDownload` goroutine, which holds
`circuitMutex` from start to finish: if `circuitPrepared` is already set,
log and return with no side effect; otherwise initialize the app (on error,
log and return), invoke `sdk.Compile` (on error, log and return, leaving the
flag unchanged), and on success set `circuitPrepared`. -/
def prepStep (prepared : Bool) (o : PrepOutcome) : PrepStepResult :=
  if prepared then ⟨true, false, .alreadyPrepared⟩
  else if !o.appInitOk then ⟨false, false, .appInitError⟩
  else if o.compileOk then ⟨true, true, .complete⟩
  else ⟨false, true, .compileError⟩

/-- A serialized sequence of goroutine executions (the mutex is held for each
whole body, so any interleaving of concurrent triggers is some such
sequence): final `circuitPrepared` flag and total number of `sdk.Compile`
invocations. -/
def runPrep : Bool → List PrepOutcome → Bool × Nat
  | prepared, [] => (prepared, 0)
  | prepared, o :: os =>
      let r := prepStep prepared o
      let rest := runPrep r.prepared os
      (rest.1, (if r.compiled then 1 else 0) + rest.2)

/-- `handlePrepareDownload`: spawns the background goroutine and immediately
writes the HTTP response, `200 OK` with a fixed body. -/
def handlePrepareDownload (prepared : Bool) (o : PrepOutcome) :
    (Nat × String) × PrepStepResult :=
  ((200, "Circuit preparation started."), prepStep prepared o)

/-- C5: a trigger that finds the flag already set logs "already prepared" and
returns with no side effects, so two sequential triggers, the second after
the first completed successfully, invoke `sdk.Compile` exactly once. -/
theorem trigger_prep_idempotent (o : PrepOutcome) :
    prepStep true o = ⟨true, false, .alreadyPrepared⟩ ∧
    runPrep false [⟨true, true⟩, o] = (true, 1) := by
  constructor
  · rfl
  · simp [runPrep, prepStep]

/-- C6: the preparation state only ever moves from not-prepared to prepared.
A step from the prepared state never clears the flag and never compiles; a
step from the unprepared state sets the flag exactly when app initialization
and compilation both succeed, and otherwise leaves it unset (so a later
trigger retries); once prepared, any serialized sequence of further triggers
stays prepared. -/
theorem prep_state_monotone (o : PrepOutcome) (os : List PrepOutcome) :
    (prepStep true o).prepared = true ∧
    (prepStep true o).compiled = false ∧
    ((prepStep false o).prepared = true ↔ o.appInitOk = true ∧ o.compileOk = true) ∧
    (runPrep true os).1 = true := by
  refine ⟨rfl, rfl, ?_, ?_⟩
  · cases o with
    | mk a c => cases a <;> cases c <;> simp [prepStep]
  · induction os with
    | nil => rfl
    | cons o' os ih => simpa [runPrep, prepStep] using ih

/-- C7 counterexample: the claim that `sdk.Compile` is invoked at most once
before the state reaches prepared fails when a compile attempt fails: two
serialized triggers whose first compile fails and whose second succeeds
reach the prepared state after two compile invocations, and 2 > 1. -/
theorem prep_compile_once_cex :
    runPrep false [⟨true, false⟩, ⟨true, true⟩] = (true, 2) ∧ ¬ (2 ≤ 1) := by
  constructor
  · simp [runPrep, prepStep]
  · omega

/-- C7 amended: the mutex serializes compilation attempts, so over any
serialized sequence of triggers in which every `sdk.Compile` invocation
succeeds, `sdk.Compile` is invoked at most once before the state reaches
prepared; and once prepared, no further trigger ever invokes it. -/
theorem prep_compile_at_most_once (os : List PrepOutcome)
    (hok : ∀ o ∈ os, o.compileOk = true) :
    (runPrep false os).2 ≤ 1 ∧ (runPrep true os).2 = 0 := by
  have hprep : ∀ l : List PrepOutcome, (runPrep true l).2 = 0 := by
    intro l
    induction l with
    | nil => rfl
    | cons o' l ih => simpa [runPrep, prepStep] using ih
  refine ⟨?_, hprep os⟩
  induction os with
  | nil => simp [runPrep]
  | cons o os ih =>
      have hoc : o.compileOk = true := hok o (List.mem_cons_self o os)
      have hrest : ∀ o' ∈ os, o'.compileOk = true :=
        fun o' h => hok o' (List.mem_cons_of_mem _ h)
      cases ha : o.appInitOk with
      | false => simpa [runPrep, prepStep, ha] using ih hrest
      | true => simp [runPrep, prepStep, ha, hoc, hprep os]

/-- Witness for C7 amended: a single trigger whose compile succeeds invokes
`sdk.Compile` once, and a trigger arriving when already prepared invokes it
zero times. -/
theorem prep_compile_at_most_once_spot :
    (runPrep false [⟨true, true⟩]).2 ≤ 1 ∧ (runPrep true [⟨true, true⟩]).2 = 0 :=
  prep_compile_at_most_once [⟨true, true⟩] (by intro o h; fin_cases h; rfl)

/-- C8: every trigger-preparation call immediately receives the fixed status
200 with the literal body "Circuit preparation started.", whatever the
background outcome; failures of the background task are only logged and
never appear in the response. -/
theorem prepare_download_ack (prepared : Bool) (o : PrepOutcome) :
    (handlePrepareDownload prepared o).1 = (200, "Circuit preparation started.") :=
  rfl

/-- Outcomes of the collaborator calls `handleSubmitProof` may make, in
source order: `sdk.NewBrevisApp`, `app.BuildCircuitInput` (on success, the
fetched storage-slot values), `sdk.NewFullWitness`, `sdk.Prove`,
`app.SubmitProof`, `app.PrepareRequest` (on success, the request id's hex
string and the fee), `app.WaitFinalProofSubmitted` (on success, the
transaction's hex string). -/
structure SubmitOracle where
  newApp : Except String Unit
  buildInput : Except String (List Nat)
  fullWitness : Except String Unit
  proveStage : Except String Unit
  submitStage : Except String Unit
  prepareRequest : Except String (String × Nat)
  waitFinal : Except String String
deriving Repr

/-- Which collaborator calls `handleSubmitProof` actually made, and with
which slot stream `sdk.NewFullWitness` was entered. -/
structure SubmitTrace where
  newAppCalled : Bool
  buildInputCalled : Bool
  witnessCalled : Bool
  witnessInput : Option (List Nat)
  proveCalled : Bool
  submitCalled : Bool
  prepareCalled : Bool
  finalityCalled : Bool
deriving Repr, DecidableEq

/-- The trace of a submission that made no collaborator call at all. -/
def emptyTrace : SubmitTrace :=
  ⟨false, false, false, none, false, false, false, false⟩

/-- The HTTP response of `handleSubmitProof`: either `http.Error` with a
status code and a plain-text body, or the JSON success payload with
`request_id`, `fee` and `transaction`. -/
inductive SubmitResult where
  | httpError (status : Nat) (body : String)
  | jsonResponse (requestId : String) (fee : Nat) (transaction : String)
deriving Repr, DecidableEq

/-- `handleSubmitProof`: read `circuitPrepared` under the mutex; if unset,
fail with 400 and a fixed body before any collaborator call; otherwise run
the stages in source order, returning 500 with the failing stage's message
at the first error, and on full success the JSON payload. -/
def handleSubmitProof (prepared : Bool) (o : SubmitOracle) :
    SubmitResult × SubmitTrace :=
  if !prepared then
    (.httpError 400 "Circuit not prepared yet. Please try again later.", emptyTrace)
  else
    match o.newApp with
    | .error e =>
        (.httpError 500 ("Error initializing BrevisApp: " ++ e),
         ⟨true, false, false, none, false, false, false, false⟩)
    | .ok _ =>
      match o.buildInput with
      | .error e =>
          (.httpError 500 ("Error building circuit input: " ++ e),
           ⟨true, true, false, none, false, false, false, false⟩)
      | .ok slots =>
        match o.fullWitness with
        | .error e =>
            (.httpError 500 ("Error generating witness: " ++ e),
             ⟨true, true, true, some slots, false, false, false, false⟩)
        | .ok _ =>
          match o.proveStage with
          | .error e =>
              (.httpError 500 ("Error generating proof: " ++ e),
               ⟨true, true, true, some slots, true, false, false, false⟩)
          | .ok _ =>
            match o.submitStage with
            | .error e =>
                (.httpError 500 ("Error submitting proof: " ++ e),
                 ⟨true, true, true, some slots, true, true, false, false⟩)
            | .ok _ =>
              match o.prepareRequest with
              | .error e =>
                  (.httpError 500 ("Error preparing request: " ++ e),
                   ⟨true, true, true, some slots, true, true, true, false⟩)
              | .ok (requestId, fee) =>
                match o.waitFinal with
                | .error e =>
                    (.httpError 500 ("Error waiting for proof submission: " ++ e),
                     ⟨true, true, true, some slots, true, true, true, true⟩)
                | .ok tx =>
                    (.jsonResponse requestId fee tx,
                     ⟨true, true, true, some slots, true, true, true, true⟩)

/-- An oracle whose every collaborator call succeeds. -/
def oracleAllOk : SubmitOracle :=
  ⟨.ok (), .ok [10000, 10000, 10000], .ok (), .ok (), .ok (),
   .ok ("0xabc", 7), .ok "0xdef"⟩

/-- C3 amended: a submission arriving while the flag is unset fails
immediately with the fixed not-ready body and invokes no collaborator — but
the status is 400 Bad Request, a client error status, not a server error
status. -/
theorem submit_not_ready (o : SubmitOracle) :
    handleSubmitProof false o =
      (.httpError 400 "Circuit not prepared yet. Please try again later.",
       emptyTrace) :=
  rfl

/-- C3 counterexample: at a concrete oracle the not-ready response carries
status 400, and 400 is not a server error status (it is below 500), refuting
the claim that the not-ready error uses a server error status. -/
theorem submit_not_ready_status_cex :
    (handleSubmitProof false oracleAllOk).1 =
      .httpError 400 "Circuit not prepared yet. Please try again later." ∧
    ¬ (500 ≤ 400) := by
  exact ⟨rfl, by omega⟩

/-- C4: each pipeline stage runs only if every earlier stage succeeded, and
the first failing stage's error becomes the response: for each stage, if the
earlier stages succeed and that stage fails, the handler returns 500 with
that stage's message and the trace shows no later collaborator call — in
particular, when building the circuit input fails, neither witness
generation, proof generation, proof submission, request preparation nor the
finality wait occurs. -/
theorem submit_fail_fast (o : SubmitOracle) :
    (∀ e, o.newApp = .error e →
      handleSubmitProof true o =
        (.httpError 500 ("Error initializing BrevisApp: " ++ e),
         ⟨true, false, false, none, false, false, false, false⟩)) ∧
    (∀ e, o.newApp = .ok () → o.buildInput = .error e →
      handleSubmitProof true o =
        (.httpError 500 ("Error building circuit input: " ++ e),
         ⟨true, true, false, none, false, false, false, false⟩)) ∧
    (∀ e slots, o.newApp = .ok () → o.buildInput = .ok slots →
      o.fullWitness = .error e →
      handleSubmitProof true o =
        (.httpError 500 ("Error generating witness: " ++ e),
         ⟨true, true, true, some slots, false, false, false, false⟩)) ∧
    (∀ e slots, o.newApp = .ok () → o.buildInput = .ok slots →
      o.fullWitness = .ok () → o.proveStage = .error e →
      handleSubmitProof true o =
        (.httpError 500 ("Error generating proof: " ++ e),
         ⟨true, true, true, some slots, true, false, false, false⟩)) ∧
    (∀ e slots, o.newApp = .ok () → o.buildInput = .ok slots →
      o.fullWitness = .ok () → o.proveStage = .ok () → o.submitStage = .error e →
      handleSubmitProof true o =
        (.httpError 500 ("Error submitting proof: " ++ e),
         ⟨true, true, true, some slots, true, true, false, false⟩)) ∧
    (∀ e slots, o.newApp = .ok () → o.buildInput = .ok slots →
      o.fullWitness = .ok () → o.proveStage = .ok () → o.submitStage = .ok () →
      o.prepareRequest = .error e →
      handleSubmitProof true o =
        (.httpError 500 ("Error preparing request: " ++ e),
         ⟨true, true, true, some slots, true, true, true, false⟩)) ∧
    (∀ e slots rid fee, o.newApp = .ok () → o.buildInput = .ok slots →
      o.fullWitness = .ok () → o.proveStage = .ok () → o.submitStage = .ok () →
      o.prepareRequest = .ok (rid, fee) → o.waitFinal = .error e →
      handleSubmitProof true o =
        (.httpError 500 ("Error waiting for proof submission: " ++ e),
         ⟨true, true, true, some slots, true, true, true, true⟩)) := by
  refine ⟨?_, ?_, ?_, ?_, ?_, ?_, ?_⟩
  · intro e h1
    simp [handleSubmitProof, h1]
  · intro e h1 h2
    simp [handleSubmitProof, h1, h2]
  · intro e slots h1 h2 h3
    simp [handleSubmitProof, h1, h2, h3]
  · intro e slots h1 h2 h3 h4
    simp [handleSubmitProof, h1, h2, h3, h4]
  · intro e slots h1 h2 h3 h4 h5
    simp [handleSubmitProof, h1, h2, h3, h4, h5]
  · intro e slots h1 h2 h3 h4 h5 h6
    simp [handleSubmitProof, h1, h2, h3, h4, h5, h6]
  · intro e slots rid fee h1 h2 h3 h4 h5 h6 h7
    simp [handleSubmitProof, h1, h2, h3, h4, h5, h6, h7]

/-- Fixed allocation and the slot-bound: `Allocate` returns `(0, 32, 0)`. -/
theorem allocate_fixed : Allocate = (0, 32, 0) :=
  rfl

/-- C9 amended: the circuit's allocation is fixed at
`(maxReceipts, maxStorageSlots, maxTransactions) = (0, 32, 0)`, but the
pipeline itself neither rejects nor truncates an oversized stream: whatever
slot stream the input builder returns, of any length, is passed unchanged to
witness generation. -/
theorem slot_bound_not_enforced (o : SubmitOracle) (slots : List Nat)
    (happ : o.newApp = .ok ()) (hbuild : o.buildInput = .ok slots) :
    Allocate = (0, 32, 0) ∧
    (handleSubmitProof true o).2.witnessCalled = true ∧
    (handleSubmitProof true o).2.witnessInput = some slots := by
  refine ⟨rfl, ?_, ?_⟩ <;>
    · simp only [handleSubmitProof, happ, hbuild, Bool.not_true, Bool.false_eq_true,
        if_false]
      cases h3 : o.fullWitness with
      | error e => simp
      | ok u =>
          cases h4 : o.proveStage with
          | error e => simp
          | ok u =>
              cases h5 : o.submitStage with
              | error e => simp
              | ok u =>
                  cases h6 : o.prepareRequest with
                  | error e => simp
                  | ok p =>
                      cases h7 : o.waitFinal with
                      | error e => simp
                      | ok tx => simp

/-- An oracle whose input builder returns 33 slot values, one more than the
allocation's `maxStorageSlots = 32`, with every stage succeeding. -/
def oracle33 : SubmitOracle :=
  ⟨.ok (), .ok (List.replicate 33 10000), .ok (), .ok (), .ok (),
   .ok ("0xabc", 7), .ok "0xdef"⟩

/-- C9 counterexample: with a 33-entry stream, one more than
`maxStorageSlots`, the pipeline still invokes witness generation and hands
it the full untruncated 33-entry stream, refuting the claim that the
pipeline rejects or truncates streams exceeding 32 entries. -/
theorem slot_bound_cex :
    (handleSubmitProof true oracle33).2.witnessCalled = true ∧
    (handleSubmitProof true oracle33).2.witnessInput =
      some (List.replicate 33 10000) ∧
    (List.replicate 33 (10000 : Nat)).length = 33 ∧
    ¬ (33 ≤ 32) := by
  refine ⟨rfl, rfl, by simp, by omega⟩

/-- Witness for C9 amended, at the concrete 33-slot oracle. -/
theorem slot_bound_not_enforced_spot :
    Allocate = (0, 32, 0) ∧
    (handleSubmitProof true oracle33).2.witnessCalled = true ∧
    (handleSubmitProof true oracle33).2.witnessInput =
      some (List.replicate 33 10000) :=
  slot_bound_not_enforced oracle33 (List.replicate 33 10000) rfl rfl
